import Mathlib

/-!
Verification of the cell-simulation engine (`src/simulation/*` together with the
crate-level `config.rs` constants it reads).

Modelling conventions:
* `f32` / `f64` energy values are embedded as exact rationals `ℚ`.  The source
  performs only additions, subtractions, `min` and `clamp` on them, which the
  rational model mirrors operation-for-operation.
* Machine integers (`u8`, `u32`, `usize`) are embedded as `ℕ`; the verified
  statements stay inside the ranges where the Rust arithmetic cannot overflow.
* Panics (`unwrap` on a failed map lookup, out-of-range indexing) are embedded
  as `Option`: `none` is the panic.
* All randomness (`thread_rng`) is passed in as an oracle (`Rng`) recording the
  outcomes the generator would have produced.
-/

namespace CellSim

/-- `config::GENOME_LENGTH` (u8, value 32). -/
def GENOME_LENGTH : ℕ := 32

/-- The constants of `config.rs`, gathered into a record so that theorems can
quantify over configurations; `defaultConfig` below holds the literal values of
the source file. -/
structure Config where
  SIMULATION_WIDTH : ℕ
  SIMULATION_HEIGHT : ℕ
  MUTATION_PERCENT : ℚ
  START_ENERGY : ℚ
  REPRODUCTION_REQUIRED_ENERGY : ℚ
  CELL_MAX_AGE : ℕ
  PHOTOSYNTHESIS_ENERGY : ℚ
  ATTACK_ENERGY : ℚ
  MOVEMENT_COST : ℚ
  TURN_COST : ℚ
  ATTACK_REQUIRED_ENERGY : ℚ
  NOOP_COST : ℚ

/-- The literal constant values of `config.rs`:
width 160, height 90, mutation 5%, start energy 5, reproduction 16,
max age 2048, photosynthesis 1.25, attack energy `1.25 * 4`, movement 1,
turn `1 * 0.5`, attack-entry `1 * 2`, noop 0.1. -/
def defaultConfig : Config where
  SIMULATION_WIDTH := 160
  SIMULATION_HEIGHT := 90
  MUTATION_PERCENT := 5
  START_ENERGY := 5
  REPRODUCTION_REQUIRED_ENERGY := 16
  CELL_MAX_AGE := 2048
  PHOTOSYNTHESIS_ENERGY := 5/4
  ATTACK_ENERGY := (5/4) * 4
  MOVEMENT_COST := 1
  TURN_COST := 1 * (1/2)
  ATTACK_REQUIRED_ENERGY := 1 * 2
  NOOP_COST := 1/10

/-- `gene.rs`: the opcode enumeration. -/
inductive Instruction where
  | Noop
  | TurnLeft
  | TurnRight
  | MoveForwards
  | Photosynthesis
  | GiveEnergy
  | AttackCell
  | RecycleDeadCell
  | CheckEnergy
  | CheckIfDirectedLeft
  | CheckIfDirectedRight
  | CheckIfDirectedUp
  | CheckIfDirectedDown
  | CheckIfFacingAliveCell
  | CheckIfFacingDeadCell
  | CheckIfFacingVoid
  | CheckIfFacingRelative
  | MakeChild
deriving DecidableEq

/-- `gene.rs`: one genome slot.  `branch` / `branch_alt` are `u8` in the
source, embedded as `ℕ` (their values always fit in `u8`; the verified
statements never rely on values ≥ 256). -/
structure Gene where
  instruction : Instruction
  option : Bool
  energy : ℚ
  branch : ℕ
  branch_alt : ℕ
deriving DecidableEq

/-- `#[derive(Default)]` on `Gene` (with `#[default]` on `Instruction::Noop`). -/
def geneDefault : Gene :=
  { instruction := .Noop, option := false, energy := 0, branch := 0, branch_alt := 0 }

/-- `direction.rs`: the four-way compass enum. -/
inductive Direction where
  | Left
  | Right
  | Up
  | Down
deriving DecidableEq

namespace Direction

/-- `Direction::apply_direction`: one toroidal step in the facing, wrapping by
the `config.rs` grid constants. -/
def apply_direction (cfg : Config) (d : Direction) (x y : ℕ) : ℕ × ℕ :=
  match d with
  | .Left => if x = 0 then (cfg.SIMULATION_WIDTH - 1, y) else (x - 1, y)
  | .Right => if x = cfg.SIMULATION_WIDTH - 1 then (0, y) else (x + 1, y)
  | .Up => if y = 0 then (x, cfg.SIMULATION_HEIGHT - 1) else (x, y - 1)
  | .Down => if y = cfg.SIMULATION_HEIGHT - 1 then (x, 0) else (x, y + 1)

/-- `Direction::left`: rotate the facing 90° counter-clockwise. -/
def left : Direction → Direction
  | .Down => .Right
  | .Right => .Up
  | .Up => .Left
  | .Left => .Down

/-- `Direction::right`: rotate the facing 90° clockwise. -/
def right : Direction → Direction
  | .Left => .Up
  | .Up => .Right
  | .Right => .Down
  | .Down => .Left

end Direction

/-- `color.rs`: a 24-bit RGB color (three `u8` channels, embedded as `ℕ`). -/
structure Color where
  r : ℕ
  g : ℕ
  b : ℕ
deriving DecidableEq

/-- `Color::BLACK`. -/
def Color.BLACK : Color := ⟨0, 0, 0⟩

/-- `bot.rs`: one grid cell.  The genome is the fixed-length array
`[Gene; GENOME_LENGTH]`, embedded as a function out of `Fin 32`.
`current_instruction` is a `u8`, embedded as `ℕ`. -/
structure Bot where
  alive : Bool
  empty : Bool
  x : ℕ
  y : ℕ
  energy : ℚ
  direction : Direction
  color : Color
  age : ℕ
  genome : Fin 32 → Gene
  current_instruction : ℕ

namespace Bot

/-- `impl Default for Bot`. -/
def default : Bot where
  alive := false
  empty := true
  x := 0
  y := 0
  energy := 0
  direction := .Left
  color := Color.BLACK
  age := 0
  genome := fun _ => geneDefault
  current_instruction := 0

/-- `Bot::new_empty`. -/
def new_empty (x y : ℕ) : Bot := { Bot.default with x := x, y := y }

/-- `Bot::new_random`.  The randomly drawn genome, direction and color are
supplied by the caller as oracle values. -/
def new_random (cfg : Config) (x y : ℕ) (genome : Fin 32 → Gene)
    (dir : Direction) (col : Color) : Bot where
  alive := true
  empty := false
  x := x
  y := y
  energy := cfg.START_ENERGY
  direction := dir
  color := col
  age := 0
  genome := genome
  current_instruction := 0

/-- `Bot::is_dead`: dead-but-occupied. -/
def is_dead (b : Bot) : Bool := !b.alive && !b.empty

/-- `Bot::current_instruction()`: the gene at the instruction pointer.  The
source indexes the array directly (a pointer ≥ 32 would panic); the `% 32`
here is the identity on the panic-free region `current_instruction < 32`. -/
def currentGene (b : Bot) : Gene :=
  b.genome ⟨b.current_instruction % 32, Nat.mod_lt _ (by norm_num)⟩

end Bot

/-- `map.rs`: the `width × height` grid, `Vec<Vec<T>>` indexed `map[x][y]`,
monomorphised to `Bot`.  `data` is only meaningful inside the bounds; `get`
guards them exactly as the nested `Vec::get` calls do. -/
structure Map where
  width : ℕ
  height : ℕ
  data : ℕ → ℕ → Bot

namespace Map

/-- `Map::get` (and `Map::get_mut`, which has the same success condition):
`self.map.get(x)?.get(y)`. -/
def get (m : Map) (x y : ℕ) : Option Bot :=
  if x < m.width ∧ y < m.height then some (m.data x y) else none

/-- `Map::set`: `self.map[x][y] = cell`.  (The source would panic out of
bounds; every verified call site is in bounds.) -/
def set (m : Map) (x y : ℕ) (c : Bot) : Map :=
  { m with data := fun i j => if i = x ∧ j = y then c else m.data i j }

end Map

/-- Oracle for the randomness consumed by one `MakeChild` execution:
the outcome of `gen_bool(MUTATION_PERCENT / 100)`, the slot drawn by
`gen_range(0..GENOME_LENGTH - 1)` (note the source range excludes the last
slot), and the results `Gene::mutate` / `Color::mutate(16.0)` would produce on
the chosen gene and on the parent color. -/
structure Rng where
  doMutate : Bool
  geneIdx : Fin 31
  mutateGene : Gene → Gene
  mutateColor : Color → Color

/-- `f32::clamp(self, min, max)` on the rational model: the source's
branch-for-branch definition (panic for `min > max` elided; at every verified
call `min ≤ max`). -/
def rustClamp (x lo hi : ℚ) : ℚ :=
  if x < lo then lo else if hi < x then hi else x

/-- The offspring constructed by the `MakeChild` arm (bot.rs lines 267–282):
a copy of the parent at the faced coordinate with fresh age, start energy and
pointer 0, one gene (and the color) mutated when the mutation roll succeeds. -/
def Bot.makeChild (cfg : Config) (rng : Rng) (b : Bot) (lx ly : ℕ) : Bot :=
  let child0 : Bot :=
    { b with x := lx, y := ly, age := 0,
             energy := cfg.START_ENERGY, current_instruction := 0 }
  if rng.doMutate then
    let i : Fin 32 := Fin.castLE (by norm_num) rng.geneIdx
    { child0 with
        genome := Function.update child0.genome i
          (rng.mutateGene (child0.genome i)),
        color := rng.mutateColor child0.color }
  else child0

/-- The body of `Bot::update` from the faced-cell lookup through the opcode
`match` (lines 131–290 of `bot.rs`): returns the updated self copy, the map
(with the faced cell written back when the arm mutated it through
`cell_in_front`), and the raw computed `next_instruction` before wrapping.
`none` is the panic of `map.get_mut(..).unwrap()`. -/
def Bot.exec (cfg : Config) (rng : Rng) (b : Bot) (m : Map) :
    Option (Bot × Map × ℕ) :=
  let next := b.current_instruction + 1
  let lk := b.direction.apply_direction cfg b.x b.y
  match m.get lk.1 lk.2 with
  | none => none
  | some f =>
    some (match b.currentGene.instruction with
    | .TurnLeft =>
        ({ b with direction := b.direction.left,
                  energy := b.energy - cfg.TURN_COST }, m, next)
    | .TurnRight =>
        ({ b with direction := b.direction.right,
                  energy := b.energy - cfg.TURN_COST }, m, next)
    | .MoveForwards =>
        (if f.empty = true then
          { b with x := lk.1, y := lk.2, energy := b.energy - cfg.MOVEMENT_COST }
        else b, m, next)
    | .Photosynthesis =>
        ({ b with energy := b.energy + cfg.PHOTOSYNTHESIS_ENERGY }, m, next)
    | .GiveEnergy =>
        if f.alive = true then
          let energy_to_give := rustClamp b.currentGene.energy 0 b.energy
          ({ b with energy := b.energy - energy_to_give },
           m.set lk.1 lk.2 { f with energy := f.energy + energy_to_give }, next)
        else (b, m, next)
    | .AttackCell =>
        if cfg.ATTACK_REQUIRED_ENERGY ≤ b.energy ∧ f.alive = true then
          let taken_energy := min f.energy cfg.ATTACK_ENERGY
          ({ b with energy := b.energy - cfg.ATTACK_REQUIRED_ENERGY + taken_energy },
           m.set lk.1 lk.2 { f with energy := f.energy - taken_energy }, next)
        else (b, m, next)
    | .RecycleDeadCell =>
        if f.is_dead = true then
          ({ b with energy := b.energy + f.energy },
           m.set lk.1 lk.2 { f with empty := true }, next)
        else (b, m, next)
    | .CheckEnergy =>
        (b, m, if b.currentGene.energy < b.energy then b.currentGene.branch
               else b.currentGene.branch_alt)
    | .CheckIfDirectedLeft =>
        (b, m, if b.direction = .Left then b.currentGene.branch
               else b.currentGene.branch_alt)
    | .CheckIfDirectedRight =>
        (b, m, if b.direction = .Right then b.currentGene.branch
               else b.currentGene.branch_alt)
    | .CheckIfDirectedUp =>
        (b, m, if b.direction = .Up then b.currentGene.branch
               else b.currentGene.branch_alt)
    | .CheckIfDirectedDown =>
        (b, m, if b.direction = .Down then b.currentGene.branch
               else b.currentGene.branch_alt)
    | .CheckIfFacingAliveCell =>
        (b, m, if f.alive = true then b.currentGene.branch
               else b.currentGene.branch_alt)
    | .CheckIfFacingDeadCell =>
        (b, m, if f.is_dead = true then b.currentGene.branch
               else b.currentGene.branch_alt)
    | .CheckIfFacingVoid =>
        (b, m, if f.empty = true then b.currentGene.branch
               else b.currentGene.branch_alt)
    | .CheckIfFacingRelative =>
        if f.alive = false then (b, m, b.currentGene.branch_alt)
        else
          let similar_genes :=
            (Finset.univ.filter fun i : Fin 32 =>
              (b.genome i).instruction = (f.genome i).instruction).card
          (b, m, if similar_genes = GENOME_LENGTH then b.currentGene.branch
                 else b.currentGene.branch_alt)
    | .MakeChild =>
        if b.energy < cfg.REPRODUCTION_REQUIRED_ENERGY ∧ f.empty = false then
          (b, m, b.currentGene.branch_alt)
        else
          let child := Bot.makeChild cfg rng b lk.1 lk.2
          ({ b with energy := b.energy - cfg.REPRODUCTION_REQUIRED_ENERGY },
           m.set child.x child.y child, b.currentGene.branch)
    | .Noop => (b, m, next))

/-- The common epilogue of `Bot::update` (bot.rs lines 292–304): wrap the
computed pointer to 0 when it reaches `GENOME_LENGTH`, store it, pay the flat
noop cost, run the death check (on the age *before* the increment, exactly as
in the source), then increment the age. -/
def Bot.epilogue (cfg : Config) (b1 : Bot) (next : ℕ) : Bot :=
  let next1 := if GENOME_LENGTH ≤ next then 0 else next
  let b2 : Bot := { b1 with current_instruction := next1,
                            energy := b1.energy - cfg.NOOP_COST }
  let b3 : Bot := if cfg.CELL_MAX_AGE < b2.age ∨ b2.energy < 0 then
                    { b2 with alive := false }
                  else b2
  { b3 with age := b3.age + 1 }

/-- `Bot::update`: early return for non-alive cells, then the opcode dispatch
(`Bot.exec`), then the common epilogue. -/
def Bot.update (cfg : Config) (rng : Rng) (b : Bot) (m : Map) :
    Option (Bot × Map) :=
  if b.alive = false then some (b, m)
  else
    match b.exec cfg rng m with
    | none => none
    | some (b1, m1, next) => some (b1.epilogue cfg next, m1)

/-- The body of the inner loop of `Simulation::update` (mod.rs lines 182–207):
copy the cell out, run `Bot::update` against the live map, blank the vacated
coordinate on movement, write the bot back at its (possibly new) coordinate.
(The selected-bot snapshot bookkeeping does not touch the map.) -/
def stepCell (cfg : Config) (rng : Rng) (m : Map) (x y : ℕ) : Option Map :=
  match m.get x y with
  | none => none
  | some bot =>
    match Bot.update cfg rng bot m with
    | none => none
    | some (bot1, m1) =>
      let m2 := if (bot.x, bot.y) ≠ (bot1.x, bot1.y) then
                  m1.set bot.x bot.y (Bot.new_empty bot.x bot.y)
                else m1
      some (m2.set bot1.x bot1.y bot1)

/-- One full tick of `Simulation::update` (unpaused): the column-major scan
`for x in 0..width { for y in 0..height { .. } }`.  The per-cell randomness is
an oracle indexed by the scanned coordinate. -/
def simUpdate (cfg : Config) (rng : ℕ → ℕ → Rng) (m : Map) : Option Map :=
  (List.range m.width).foldlM
    (fun acc x =>
      (List.range m.height).foldlM (fun acc2 y => stepCell cfg (rng x y) acc2 x y) acc)
    m

/-- The flag part of the three-state cell partition: a cell is never both
alive and empty, so the flags classify it as empty, alive, or
dead-but-occupied. -/
def WFCell (c : Bot) : Prop := c.alive = true → c.empty = false

instance (c : Bot) : Decidable (WFCell c) := by unfold WFCell; infer_instance

/-- Every readable cell of the grid satisfies the flag partition. -/
def MapWF (m : Map) : Prop := ∀ x y c, m.get x y = some c → WFCell c

/-! ### Serialized form of a cell

`Bot` and its field types only `#[derive(Serialize, Deserialize)]`; the codec
itself is generated by serde and is not part of the repository sources, so it
is modelled from the spec here. -/

/-- Modelled from the spec: the structured text encoding (a JSON value tree,
as produced by `serde_json`) into which a cell is serialized for manual
editing/export.  Numbers are the exact rationals of the model. -/
inductive Json where
  | null
  | bool (b : Bool)
  | num (q : ℚ)
  | str (s : String)
  | arr (xs : List Json)
  | obj (fields : List (String × Json))

/-- Modelled from the spec: the serialized name of each opcode (serde encodes
a unit enum variant as its name). -/
def Instruction.toName : Instruction → String
  | .Noop => "Noop"
  | .TurnLeft => "TurnLeft"
  | .TurnRight => "TurnRight"
  | .MoveForwards => "MoveForwards"
  | .Photosynthesis => "Photosynthesis"
  | .GiveEnergy => "GiveEnergy"
  | .AttackCell => "AttackCell"
  | .RecycleDeadCell => "RecycleDeadCell"
  | .CheckEnergy => "CheckEnergy"
  | .CheckIfDirectedLeft => "CheckIfDirectedLeft"
  | .CheckIfDirectedRight => "CheckIfDirectedRight"
  | .CheckIfDirectedUp => "CheckIfDirectedUp"
  | .CheckIfDirectedDown => "CheckIfDirectedDown"
  | .CheckIfFacingAliveCell => "CheckIfFacingAliveCell"
  | .CheckIfFacingDeadCell => "CheckIfFacingDeadCell"
  | .CheckIfFacingVoid => "CheckIfFacingVoid"
  | .CheckIfFacingRelative => "CheckIfFacingRelative"
  | .MakeChild => "MakeChild"

/-- Modelled from the spec: deserialization of an opcode name. -/
def Instruction.ofName : String → Option Instruction
  | "Noop" => some .Noop
  | "TurnLeft" => some .TurnLeft
  | "TurnRight" => some .TurnRight
  | "MoveForwards" => some .MoveForwards
  | "Photosynthesis" => some .Photosynthesis
  | "GiveEnergy" => some .GiveEnergy
  | "AttackCell" => some .AttackCell
  | "RecycleDeadCell" => some .RecycleDeadCell
  | "CheckEnergy" => some .CheckEnergy
  | "CheckIfDirectedLeft" => some .CheckIfDirectedLeft
  | "CheckIfDirectedRight" => some .CheckIfDirectedRight
  | "CheckIfDirectedUp" => some .CheckIfDirectedUp
  | "CheckIfDirectedDown" => some .CheckIfDirectedDown
  | "CheckIfFacingAliveCell" => some .CheckIfFacingAliveCell
  | "CheckIfFacingDeadCell" => some .CheckIfFacingDeadCell
  | "CheckIfFacingVoid" => some .CheckIfFacingVoid
  | "CheckIfFacingRelative" => some .CheckIfFacingRelative
  | "MakeChild" => some .MakeChild
  | _ => none

/-- Modelled from the spec: serialized name of a facing direction. -/
def Direction.toName : Direction → String
  | .Left => "Left"
  | .Right => "Right"
  | .Up => "Up"
  | .Down => "Down"

/-- Modelled from the spec: deserialization of a facing direction. -/
def Direction.ofName : String → Option Direction
  | "Left" => some .Left
  | "Right" => some .Right
  | "Up" => some .Up
  | "Down" => some .Down
  | _ => none

/-- Modelled from the spec: a JSON number decoded back into an unsigned
machine integer (width checks elided; the model's `ℕ` fields stand for the
in-range machine values). -/
def decodeNat : Json → Option ℕ
  | .num q => if q.den = 1 ∧ 0 ≤ q.num then some q.num.toNat else none
  | _ => none

/-- Modelled from the spec: a JSON number decoded back into an energy value. -/
def decodeRat : Json → Option ℚ
  | .num q => some q
  | _ => none

/-- Modelled from the spec: one serialized genome slot, field for field. -/
def encodeGene (g : Gene) : Json :=
  .obj [("instruction", .str g.instruction.toName),
        ("option", .bool g.option),
        ("energy", .num g.energy),
        ("branch", .num g.branch),
        ("branch_alt", .num g.branch_alt)]

/-- Modelled from the spec: deserialization of one genome slot. -/
def decodeGene : Json → Option Gene
  | .obj [("instruction", .str s), ("option", .bool o), ("energy", ej),
          ("branch", bj), ("branch_alt", baj)] => do
      let i ← Instruction.ofName s
      let e ← decodeRat ej
      let br ← decodeNat bj
      let ba ← decodeNat baj
      pure { instruction := i, option := o, energy := e,
             branch := br, branch_alt := ba }
  | _ => none

/-- Modelled from the spec: the serialized color — a tuple struct of three
`u8` channels becomes a three-element array. -/
def encodeColor (c : Color) : Json := .arr [.num c.r, .num c.g, .num c.b]

/-- Modelled from the spec: deserialization of a color. -/
def decodeColor : Json → Option Color
  | .arr [rj, gj, bj] => do
      let r ← decodeNat rj
      let g ← decodeNat gj
      let b ← decodeNat bj
      pure ⟨r, g, b⟩
  | _ => none

/-- Modelled from the spec: the full serialized form of a cell — occupancy
flags, coordinates, energy, direction, color, age, all 32 genome slots, and
the instruction pointer, in the declaration order of `Bot`. -/
def encodeBot (b : Bot) : Json :=
  .obj [("alive", .bool b.alive),
        ("empty", .bool b.empty),
        ("x", .num b.x),
        ("y", .num b.y),
        ("energy", .num b.energy),
        ("direction", .str b.direction.toName),
        ("color", encodeColor b.color),
        ("age", .num b.age),
        ("genome", .arr (List.ofFn fun i => encodeGene (b.genome i))),
        ("current_instruction", .num b.current_instruction)]

/-- Modelled from the spec: deserialization of the genome array, slot by
slot. -/
def decodeGenes : List Json → Option (List Gene)
  | [] => some []
  | j :: t => do
      let g ← decodeGene j
      let r ← decodeGenes t
      pure (g :: r)

/-- Modelled from the spec: a JSON boolean decoded back into a flag. -/
def decodeBool : Json → Option Bool
  | .bool b => some b
  | _ => none

/-- Modelled from the spec: a JSON string decoded back into an enum name. -/
def decodeStr : Json → Option String
  | .str s => some s
  | _ => none

/-- Modelled from the spec: a JSON array decoded back into its elements. -/
def decodeArr : Json → Option (List Json)
  | .arr xs => some xs
  | _ => none

/-- Modelled from the spec: deserialization of a cell from its serialized
form — an object with exactly the ten fields of `Bot` in declaration order;
fails (`none`) on malformed input, including a genome whose length is not
exactly `GENOME_LENGTH`. -/
def decodeBot : Json → Option Bot
  | .obj [(n1, aj), (n2, emj), (n3, xj), (n4, yj), (n5, ej), (n6, dj),
          (n7, cj), (n8, agj), (n9, gj), (n10, ij)] =>
      if n1 = "alive" ∧ n2 = "empty" ∧ n3 = "x" ∧ n4 = "y" ∧ n5 = "energy" ∧
         n6 = "direction" ∧ n7 = "color" ∧ n8 = "age" ∧ n9 = "genome" ∧
         n10 = "current_instruction" then do
        let al ← decodeBool aj
        let em ← decodeBool emj
        let x ← decodeNat xj
        let y ← decodeNat yj
        let e ← decodeRat ej
        let ds ← decodeStr dj
        let d ← Direction.ofName ds
        let c ← decodeColor cj
        let a ← decodeNat agj
        let gs ← decodeArr gj
        let gl ← decodeGenes gs
        let ci ← decodeNat ij
        if h : gl.length = 32 then
          pure { alive := al, empty := em, x := x, y := y, energy := e,
                 direction := d, color := c, age := a,
                 genome := fun i => gl.get ⟨i.val, by omega⟩,
                 current_instruction := ci }
        else none
      else none
  | _ => none

/-! ### Concrete configurations, cells and grids used by the closed theorems -/

/-- A randomness oracle whose outcomes are never consulted by the scenarios
below (none of them executes a mutating `MakeChild`). -/
def dummyRng : Rng := ⟨false, ⟨0, by norm_num⟩, id, id⟩

/-- A genome slot with the given opcode and branch targets. -/
def mkGene (i : Instruction) (br balt : ℕ) : Gene :=
  { instruction := i, option := false, energy := 0, branch := br, branch_alt := balt }

/-- The all-empty 160×90 grid. -/
def emptyMap : Map := ⟨160, 90, fun x y => Bot.new_empty x y⟩

/-- A bot at (0,0) whose whole genome is `CheckEnergy` with branch target 40
(a value a freely edited/imported cell can carry in its `u8` branch field)
and 1 energy, so the check succeeds and the computed next pointer is 40. -/
def branch40Bot : Bot :=
  { alive := true, empty := false, x := 0, y := 0, energy := 1,
    direction := .Right, color := Color.BLACK, age := 0,
    genome := fun _ => { mkGene .CheckEnergy 40 3 with energy := 0 },
    current_instruction := 0 }

/-- `branch40Bot` after one update: pointer reset to 0, noop cost paid, age
incremented. -/
def branch40BotAfter : Bot :=
  { branch40Bot with current_instruction := 0, energy := 9/10, age := 1 }

/-- A recycler at (0,0) facing right, whole genome `RecycleDeadCell`. -/
def recyclerBot : Bot :=
  { alive := true, empty := false, x := 0, y := 0, energy := 1,
    direction := .Right, color := Color.BLACK, age := 0,
    genome := fun _ => mkGene .RecycleDeadCell 0 0, current_instruction := 0 }

/-- A dead-but-occupied corpse at (1,0) holding 3 residual energy. -/
def corpseBot : Bot :=
  { alive := false, empty := false, x := 1, y := 0, energy := 3,
    direction := .Left, color := Color.BLACK, age := 7,
    genome := fun _ => mkGene .Noop 0 0, current_instruction := 0 }

/-- The 160×90 grid holding the recycler and the corpse. -/
def recycleMap : Map :=
  ⟨160, 90, fun x y =>
    if x = 0 ∧ y = 0 then recyclerBot
    else if x = 1 ∧ y = 0 then corpseBot
    else Bot.new_empty x y⟩

/-- `recyclerBot` after one update: it absorbed the corpse's 3 energy, paid
the noop cost, advanced the pointer and aged. -/
def recyclerBotAfter : Bot :=
  { recyclerBot with current_instruction := 1, energy := 39/10, age := 1 }

/-- `recycleMap` after the recycler's update: the corpse is marked empty but
keeps its residual energy field. -/
def recycleMapAfter : Map :=
  recycleMap.set 1 0 { corpseBot with empty := true }

/-- A bot executing `Noop` at (0,0) with ample energy. -/
def noopBot : Bot :=
  { alive := true, empty := false, x := 0, y := 0, energy := 10,
    direction := .Right, color := Color.BLACK, age := 0,
    genome := fun _ => mkGene .Noop 0 0, current_instruction := 0 }

/-- `noopBot` after one update: pointer advanced, noop cost paid, age
incremented. -/
def noopBotAfter : Bot :=
  { noopBot with current_instruction := 1, energy := 99/10, age := 1 }

/-- `noopBot` but already of age 1. -/
def noopBotAge1 : Bot := { noopBot with age := 1 }

/-- `noopBotAge1` after one update under `maxAge0Config`: the pre-increment
age 1 exceeds the maximum 0, so it is dead, with age incremented to 2. -/
def noopBotAge1After : Bot :=
  { noopBot with current_instruction := 1, energy := 99/10, age := 2, alive := false }

/-- The default configuration with the maximum age set to 0, so that any
bot of age ≥ 1 is over the limit. -/
def maxAge0Config : Config := { defaultConfig with CELL_MAX_AGE := 0 }

/-- The configuration of the attack scenario of §8: a 2×1 torus, attack
amount 4, movement cost 1 (hence attack-entry cost `1 * 2 = 2` and turn cost
`1 * 0.5`), and an arbitrary idle cost `c`. -/
def duelConfig (c : ℚ) : Config where
  SIMULATION_WIDTH := 2
  SIMULATION_HEIGHT := 1
  MUTATION_PERCENT := 5
  START_ENERGY := 5
  REPRODUCTION_REQUIRED_ENERGY := 16
  CELL_MAX_AGE := 2048
  PHOTOSYNTHESIS_ENERGY := 1
  ATTACK_ENERGY := 4
  MOVEMENT_COST := 1
  TURN_COST := 1 * (1/2)
  ATTACK_REQUIRED_ENERGY := 1 * 2
  NOOP_COST := c

/-- The left dueller: alive at (0,0), facing right, whole genome
`AttackCell`, 5 energy. -/
def attackerBot : Bot :=
  { alive := true, empty := false, x := 0, y := 0, energy := 5,
    direction := .Right, color := Color.BLACK, age := 0,
    genome := fun _ => mkGene .AttackCell 0 0, current_instruction := 0 }

/-- The right dueller: alive at (1,0), facing left, whole genome `Noop`,
10 energy. -/
def victimBot : Bot :=
  { alive := true, empty := false, x := 1, y := 0, energy := 10,
    direction := .Left, color := Color.BLACK, age := 0,
    genome := fun _ => mkGene .Noop 0 0, current_instruction := 0 }

/-- The 2×1 duel grid. -/
def duelMap : Map :=
  ⟨2, 1, fun x _ => if x = 0 then attackerBot else victimBot⟩

/-- A donor at (0,0) facing right, whole genome `GiveEnergy` with gene energy
parameter 2, self energy 5. -/
def donorBot : Bot :=
  { alive := true, empty := false, x := 0, y := 0, energy := 5,
    direction := .Right, color := Color.BLACK, age := 0,
    genome := fun _ => { mkGene .GiveEnergy 0 0 with energy := 2 },
    current_instruction := 0 }

/-- A recipient at (1,0), alive with 1 energy. -/
def recipientBot : Bot :=
  { alive := true, empty := false, x := 1, y := 0, energy := 1,
    direction := .Left, color := Color.BLACK, age := 0,
    genome := fun _ => mkGene .Noop 0 0, current_instruction := 0 }

/-- The 160×90 grid holding the donor and the recipient. -/
def giveMap : Map :=
  ⟨160, 90, fun x y =>
    if x = 0 ∧ y = 0 then donorBot
    else if x = 1 ∧ y = 0 then recipientBot
    else Bot.new_empty x y⟩

/-- A bot at (0,0) facing right whose whole genome is
`CheckIfFacingRelative` with branch 5 / branch_alt 9. -/
def relCheckerBot : Bot :=
  { alive := true, empty := false, x := 0, y := 0, energy := 1,
    direction := .Right, color := Color.BLACK, age := 0,
    genome := fun _ => mkGene .CheckIfFacingRelative 5 9,
    current_instruction := 0 }

/-- An alive cell at (1,0) with the same opcode in every genome slot as
`relCheckerBot` (other gene fields differ). -/
def relTwinBot : Bot :=
  { alive := true, empty := false, x := 1, y := 0, energy := 1,
    direction := .Down, color := Color.BLACK, age := 3,
    genome := fun _ => mkGene .CheckIfFacingRelative 1 2,
    current_instruction := 4 }

/-- The 160×90 grid holding the relative-checker and its twin. -/
def relMap : Map :=
  ⟨160, 90, fun x y =>
    if x = 0 ∧ y = 0 then relCheckerBot
    else if x = 1 ∧ y = 0 then relTwinBot
    else Bot.new_empty x y⟩

/-- A reproducing bot at (0,0) facing right, whole genome `MakeChild` with
branch 5 / branch_alt 9, energy 20 ≥ the reproduction threshold 16. -/
def parentBot : Bot :=
  { alive := true, empty := false, x := 0, y := 0, energy := 20,
    direction := .Right, color := Color.BLACK, age := 1,
    genome := fun _ => mkGene .MakeChild 5 9, current_instruction := 0 }

/-- The 160×90 grid holding only the reproducing bot. -/
def parentMap : Map :=
  ⟨160, 90, fun x y =>
    if x = 0 ∧ y = 0 then parentBot else Bot.new_empty x y⟩

/-! ### Helper lemmas -/

theorem Map.get_set_self {m : Map} {x y : ℕ} {f : Bot} (c : Bot)
    (h : m.get x y = some f) : (m.set x y c).get x y = some c := by
  have hb : x < m.width ∧ y < m.height := by
    by_contra hc
    simp [Map.get, hc] at h
  simp [Map.get, Map.set, hb]

theorem Map.get_set_cases {m : Map} {x y i j : ℕ} {c d : Bot}
    (h : (m.set x y c).get i j = some d) :
    d = c ∨ m.get i j = some d := by
  have hb : i < m.width ∧ j < m.height := by
    by_contra hc
    simp [Map.get, Map.set, hc] at h
  by_cases hij : i = x ∧ j = y
  · obtain ⟨hix, hjy⟩ := hij
    subst hix
    subst hjy
    left
    simp [Map.get, Map.set, hb] at h
    exact h.symm
  · right
    simp [Map.get, Map.set, hb, hij] at h
    simp [Map.get, hb, h]

theorem MapWF.set {m : Map} (hm : MapWF m) {c : Bot} (hc : WFCell c)
    (x y : ℕ) : MapWF (m.set x y c) := by
  intro i j d hd
  rcases Map.get_set_cases hd with h | h
  · exact h ▸ hc
  · exact hm _ _ _ h

/-- Invariant preservation along `List.foldlM` in the `Option` monad. -/
theorem foldlM_inv {α β : Type} {P : β → Prop} {f : β → α → Option β}
    (hf : ∀ b a b', P b → f b a = some b' → P b') :
    ∀ (l : List α) (b b' : β), P b → l.foldlM f b = some b' → P b'
  | [], b, b', hp, h => by
      rw [List.foldlM_nil] at h
      exact (Option.some.inj h) ▸ hp
  | a :: l, b, b', hp, h => by
      rw [List.foldlM_cons] at h
      cases hfa : f b a with
      | none => rw [hfa] at h; exact absurd h (by simp)
      | some b1 =>
          rw [hfa] at h
          exact foldlM_inv hf l b1 b' (hf b a b1 hp hfa) (by simpa using h)

/-- Counting 32 positional matches over a 32-slot genome is the same as all
slots matching. -/
theorem similar_count_eq_iff (p : Fin 32 → Prop) [DecidablePred p] :
    ((Finset.univ.filter fun i => p i).card = GENOME_LENGTH) ↔ ∀ i, p i := by
  rw [GENOME_LENGTH]
  constructor
  · intro h i
    have hsub : (Finset.univ.filter fun i => p i) = Finset.univ := by
      apply Finset.eq_of_subset_of_card_le (Finset.filter_subset _ _)
      rw [Finset.card_univ, Fintype.card_fin, h]
    have hmem : i ∈ Finset.univ.filter fun i => p i := by
      rw [hsub]; exact Finset.mem_univ i
    exact (Finset.mem_filter.mp hmem).2
  · intro h
    rw [Finset.filter_true_of_mem fun i _ => h i, Finset.card_univ,
      Fintype.card_fin]

theorem Bot.epilogue_current_instruction (cfg : Config) (b1 : Bot) (next : ℕ) :
    (b1.epilogue cfg next).current_instruction = if 32 ≤ next then 0 else next := by
  simp [Bot.epilogue, GENOME_LENGTH, apply_ite Bot.current_instruction]

theorem Bot.epilogue_age (cfg : Config) (b1 : Bot) (next : ℕ) :
    (b1.epilogue cfg next).age = b1.age + 1 := by
  simp [Bot.epilogue, apply_ite Bot.age]

theorem Bot.epilogue_energy (cfg : Config) (b1 : Bot) (next : ℕ) :
    (b1.epilogue cfg next).energy = b1.energy - cfg.NOOP_COST := by
  simp [Bot.epilogue, apply_ite Bot.energy]

theorem Bot.epilogue_empty (cfg : Config) (b1 : Bot) (next : ℕ) :
    (b1.epilogue cfg next).empty = b1.empty := by
  simp [Bot.epilogue, apply_ite Bot.empty]

theorem Bot.epilogue_alive (cfg : Config) (b1 : Bot) (next : ℕ) :
    (b1.epilogue cfg next).alive =
      if cfg.CELL_MAX_AGE < b1.age ∨ b1.energy - cfg.NOOP_COST < 0 then false
      else b1.alive := by
  simp [Bot.epilogue, apply_ite Bot.alive]

theorem Bot.makeChild_alive (cfg : Config) (rng : Rng) (b : Bot) (lx ly : ℕ) :
    (Bot.makeChild cfg rng b lx ly).alive = b.alive := by
  simp [Bot.makeChild, apply_ite Bot.alive]

theorem Bot.makeChild_empty (cfg : Config) (rng : Rng) (b : Bot) (lx ly : ℕ) :
    (Bot.makeChild cfg rng b lx ly).empty = b.empty := by
  simp [Bot.makeChild, apply_ite Bot.empty]

theorem Bot.makeChild_x (cfg : Config) (rng : Rng) (b : Bot) (lx ly : ℕ) :
    (Bot.makeChild cfg rng b lx ly).x = lx := by
  simp [Bot.makeChild, apply_ite Bot.x]

theorem Bot.makeChild_y (cfg : Config) (rng : Rng) (b : Bot) (lx ly : ℕ) :
    (Bot.makeChild cfg rng b lx ly).y = ly := by
  simp [Bot.makeChild, apply_ite Bot.y]

theorem Bot.makeChild_age (cfg : Config) (rng : Rng) (b : Bot) (lx ly : ℕ) :
    (Bot.makeChild cfg rng b lx ly).age = 0 := by
  simp [Bot.makeChild, apply_ite Bot.age]

theorem Bot.makeChild_energy (cfg : Config) (rng : Rng) (b : Bot) (lx ly : ℕ) :
    (Bot.makeChild cfg rng b lx ly).energy = cfg.START_ENERGY := by
  simp [Bot.makeChild, apply_ite Bot.energy]

theorem Bot.makeChild_current_instruction (cfg : Config) (rng : Rng) (b : Bot)
    (lx ly : ℕ) : (Bot.makeChild cfg rng b lx ly).current_instruction = 0 := by
  simp [Bot.makeChild, apply_ite Bot.current_instruction]

/-- Eliminate `Bot.update` on an alive bot into its `Bot.exec` dispatch plus
the epilogue. -/
theorem Bot.update_elim {cfg : Config} {rng : Rng} {b : Bot} {m : Map}
    {b' : Bot} {m' : Map} (ha : b.alive = true)
    (h : Bot.update cfg rng b m = some (b', m')) :
    ∃ b1 next, b.exec cfg rng m = some (b1, m', next) ∧
      b' = b1.epilogue cfg next := by
  simp only [Bot.update, ha, Bool.true_eq_false, if_false] at h
  cases hexec : b.exec cfg rng m with
  | none => rw [hexec] at h; exact absurd h (by simp)
  | some t =>
      obtain ⟨b1, m1, next⟩ := t
      rw [hexec] at h
      simp only [Option.some.injEq, Prod.mk.injEq] at h
      obtain ⟨hb', hm'⟩ := h
      subst hm'
      exact ⟨b1, next, rfl, hb'.symm⟩

set_option maxHeartbeats 4000000 in
/-- What one opcode dispatch can never change: the executing bot's own
occupancy flags and age, and — given the flag invariant — the
well-formedness of every cell of the map. -/
theorem Bot.exec_spec {cfg : Config} {rng : Rng} {b b1 : Bot} {m m1 : Map}
    {next : ℕ} (h : b.exec cfg rng m = some (b1, m1, next)) :
    b1.alive = b.alive ∧ b1.empty = b.empty ∧ b1.age = b.age ∧
    (WFCell b → MapWF m → MapWF m1) := by
  unfold Bot.exec at h
  dsimp only at h
  cases hget : m.get (b.direction.apply_direction cfg b.x b.y).1
      (b.direction.apply_direction cfg b.x b.y).2 with
  | none => rw [hget] at h; simp at h
  | some f =>
    rw [hget] at h
    simp only [Option.some.injEq] at h
    have hwf : WFCell b → MapWF m → WFCell f := fun _ hm => hm _ _ _ hget
    cases hi : b.currentGene.instruction <;> rw [hi] at h <;> dsimp only at h <;>
      (try simp only [Prod.mk.injEq] at h)
    case Noop =>
      obtain ⟨h1, h2, -⟩ := h
      subst h1; subst h2
      exact ⟨rfl, rfl, rfl, fun _ hm => hm⟩
    case TurnLeft =>
      obtain ⟨h1, h2, -⟩ := h
      subst h1; subst h2
      exact ⟨rfl, rfl, rfl, fun _ hm => hm⟩
    case TurnRight =>
      obtain ⟨h1, h2, -⟩ := h
      subst h1; subst h2
      exact ⟨rfl, rfl, rfl, fun _ hm => hm⟩
    case Photosynthesis =>
      obtain ⟨h1, h2, -⟩ := h
      subst h1; subst h2
      exact ⟨rfl, rfl, rfl, fun _ hm => hm⟩
    case CheckEnergy =>
      obtain ⟨h1, h2, -⟩ := h
      subst h1; subst h2
      exact ⟨rfl, rfl, rfl, fun _ hm => hm⟩
    case CheckIfDirectedLeft =>
      obtain ⟨h1, h2, -⟩ := h
      subst h1; subst h2
      exact ⟨rfl, rfl, rfl, fun _ hm => hm⟩
    case CheckIfDirectedRight =>
      obtain ⟨h1, h2, -⟩ := h
      subst h1; subst h2
      exact ⟨rfl, rfl, rfl, fun _ hm => hm⟩
    case CheckIfDirectedUp =>
      obtain ⟨h1, h2, -⟩ := h
      subst h1; subst h2
      exact ⟨rfl, rfl, rfl, fun _ hm => hm⟩
    case CheckIfDirectedDown =>
      obtain ⟨h1, h2, -⟩ := h
      subst h1; subst h2
      exact ⟨rfl, rfl, rfl, fun _ hm => hm⟩
    case CheckIfFacingAliveCell =>
      obtain ⟨h1, h2, -⟩ := h
      subst h1; subst h2
      exact ⟨rfl, rfl, rfl, fun _ hm => hm⟩
    case CheckIfFacingDeadCell =>
      obtain ⟨h1, h2, -⟩ := h
      subst h1; subst h2
      exact ⟨rfl, rfl, rfl, fun _ hm => hm⟩
    case CheckIfFacingVoid =>
      obtain ⟨h1, h2, -⟩ := h
      subst h1; subst h2
      exact ⟨rfl, rfl, rfl, fun _ hm => hm⟩
    case CheckIfFacingRelative =>
      split_ifs at h <;>
        · simp only [Prod.mk.injEq] at h
          obtain ⟨h1, h2, -⟩ := h
          subst h1; subst h2
          exact ⟨rfl, rfl, rfl, fun _ hm => hm⟩
    case MoveForwards =>
      obtain ⟨h1, h2, -⟩ := h
      subst h1; subst h2
      refine ⟨?_, ?_, ?_, fun _ hm => hm⟩ <;>
        simp [apply_ite Bot.alive, apply_ite Bot.empty, apply_ite Bot.age]
    case GiveEnergy =>
      split_ifs at h
      · simp only [Prod.mk.injEq] at h
        obtain ⟨h1, h2, -⟩ := h
        subst h1; subst h2
        refine ⟨rfl, rfl, rfl, fun hwb hm => MapWF.set hm ?_ _ _⟩
        exact hwf hwb hm
      · simp only [Prod.mk.injEq] at h
        obtain ⟨h1, h2, -⟩ := h
        subst h1; subst h2
        exact ⟨rfl, rfl, rfl, fun _ hm => hm⟩
    case AttackCell =>
      split_ifs at h
      · simp only [Prod.mk.injEq] at h
        obtain ⟨h1, h2, -⟩ := h
        subst h1; subst h2
        refine ⟨rfl, rfl, rfl, fun hwb hm => MapWF.set hm ?_ _ _⟩
        exact hwf hwb hm
      · simp only [Prod.mk.injEq] at h
        obtain ⟨h1, h2, -⟩ := h
        subst h1; subst h2
        exact ⟨rfl, rfl, rfl, fun _ hm => hm⟩
    case RecycleDeadCell =>
      split_ifs at h with hc
      · simp only [Prod.mk.injEq] at h
        obtain ⟨h1, h2, -⟩ := h
        subst h1; subst h2
        refine ⟨rfl, rfl, rfl, fun hwb hm => MapWF.set hm ?_ _ _⟩
        intro hal
        have hfa : f.alive = true := hal
        simp [Bot.is_dead] at hc
        rw [hc.1] at hfa
        cases hfa
      · simp only [Prod.mk.injEq] at h
        obtain ⟨h1, h2, -⟩ := h
        subst h1; subst h2
        exact ⟨rfl, rfl, rfl, fun _ hm => hm⟩
    case MakeChild =>
      split_ifs at h with hc
      · simp only [Prod.mk.injEq] at h
        obtain ⟨h1, h2, -⟩ := h
        subst h1; subst h2
        exact ⟨rfl, rfl, rfl, fun _ hm => hm⟩
      · simp only [Prod.mk.injEq] at h
        obtain ⟨h1, h2, -⟩ := h
        subst h1; subst h2
        refine ⟨rfl, rfl, rfl, fun hwb hm => MapWF.set hm ?_ _ _⟩
        intro hal
        rw [Bot.makeChild_empty]
        rw [Bot.makeChild_alive] at hal
        exact hwb hal

/-- `Bot::update` cannot reach the `unwrap` panic when the faced coordinate is
readable. -/
theorem Bot.update_ne_none {cfg : Config} (rng : Rng) (b : Bot) (m : Map)
    (h : ∃ c, m.get (b.direction.apply_direction cfg b.x b.y).1
        (b.direction.apply_direction cfg b.x b.y).2 = some c) :
    Bot.update cfg rng b m ≠ none := by
  obtain ⟨c, hc⟩ := h
  unfold Bot.update
  split_ifs with hal
  · simp
  · unfold Bot.exec
    dsimp only
    rw [hc]
    dsimp only
    split <;> simp

/-- `Bot::update` preserves the flag partition of the bot and of every map
cell. -/
theorem Bot.update_wf {cfg : Config} {rng : Rng} {b : Bot} {m : Map}
    {b' : Bot} {m' : Map} (hwb : WFCell b) (hm : MapWF m)
    (hupd : Bot.update cfg rng b m = some (b', m')) : WFCell b' ∧ MapWF m' := by
  by_cases ha : b.alive = true
  · obtain ⟨b1, next, hexec, hb'⟩ := Bot.update_elim ha hupd
    obtain ⟨halive, hempty, -, hmwf⟩ := Bot.exec_spec hexec
    subst hb'
    constructor
    · intro hal
      rw [Bot.epilogue_alive] at hal
      rw [Bot.epilogue_empty, hempty]
      split_ifs at hal with hcond
      rw [halive] at hal
      exact hwb hal
    · exact hmwf hwb hm
  · have ha' : b.alive = false := by
      revert ha
      cases b.alive <;> simp
    simp [Bot.update, ha'] at hupd
    obtain ⟨h1, h2⟩ := hupd
    subst h1
    subst h2
    exact ⟨hwb, hm⟩

theorem stepCell_wf {cfg : Config} {rng : Rng} {m : Map} {x y : ℕ} {m2 : Map}
    (hm : MapWF m) (h : stepCell cfg rng m x y = some m2) : MapWF m2 := by
  unfold stepCell at h
  cases hget : m.get x y with
  | none => rw [hget] at h; simp at h
  | some bot =>
    rw [hget] at h
    dsimp only at h
    cases hupd : Bot.update cfg rng bot m with
    | none => rw [hupd] at h; simp at h
    | some r =>
      obtain ⟨bot1, m1⟩ := r
      rw [hupd] at h
      dsimp only at h
      obtain ⟨hw1, hwm1⟩ := Bot.update_wf (hm _ _ _ hget) hm hupd
      rw [← Option.some.inj h]
      refine MapWF.set ?_ hw1 _ _
      split_ifs
      · refine MapWF.set hwm1 ?_ _ _
        intro hal
        cases hal
      · exact hwm1

/-- One full tick preserves the flag partition of every map cell. -/
theorem simUpdate_wf {cfg : Config} {rng : ℕ → ℕ → Rng} {m m' : Map}
    (hm : MapWF m) (h : simUpdate cfg rng m = some m') : MapWF m' := by
  unfold simUpdate at h
  refine foldlM_inv ?_ (List.range m.width) m m' hm h
  intro acc x acc' hacc hfold
  refine foldlM_inv ?_ (List.range m.height) acc acc' hacc hfold
  intro acc2 y acc2' hacc2 hstep
  exact stepCell_wf hacc2 hstep

theorem instruction_name_round_trip (i : Instruction) :
    Instruction.ofName i.toName = some i := by
  cases i <;> rfl

theorem direction_name_round_trip (d : Direction) :
    Direction.ofName d.toName = some d := by
  cases d <;> rfl

theorem decodeNat_natCast (n : ℕ) : decodeNat (.num (n : ℚ)) = some n := by
  simp [decodeNat]

theorem decodeRat_num (q : ℚ) : decodeRat (.num q) = some q := rfl

theorem decodeGene_encodeGene (g : Gene) :
    decodeGene (encodeGene g) = some g := by
  simp [encodeGene, decodeGene, instruction_name_round_trip, decodeRat_num,
    decodeNat_natCast]

theorem decodeColor_encodeColor (c : Color) :
    decodeColor (encodeColor c) = some c := by
  simp [encodeColor, decodeColor, decodeNat_natCast]

theorem decodeGenes_map_encodeGene (l : List Gene) :
    decodeGenes (l.map encodeGene) = some l := by
  induction l with
  | nil => rfl
  | cons a t ih =>
      simp [decodeGenes, decodeGene_encodeGene, ih]

/-! ### Claims -/

/-- C10: for every cell that is not alive (empty or dead-but-occupied),
`Bot::update` returns immediately and changes nothing: neither the cell nor
any other cell of the map. -/
theorem c10_nonalive_update_is_noop (cfg : Config) (rng : Rng) (b : Bot)
    (m : Map) (h : b.alive = false) : Bot.update cfg rng b m = some (b, m) := by
  simp [Bot.update, h]

/-- Witness for C10: an empty cell is left exactly as it is. -/
theorem c10_witness :
    Bot.update defaultConfig dummyRng (Bot.new_empty 3 4) emptyMap =
      some (Bot.new_empty 3 4, emptyMap) :=
  c10_nonalive_update_is_noop defaultConfig dummyRng (Bot.new_empty 3 4)
    emptyMap rfl

/-- C2 (amended): for every alive bot, the stored instruction pointer after
`Bot::update` is always in `[0, 32)`, and whenever the computed next pointer
is ≥ 32 it is stored as 0 — a flat reset, not the computed value modulo 32. -/
theorem c2_pointer_wrap (cfg : Config) (rng : Rng) (b : Bot) (m : Map)
    (b' : Bot) (m' : Map) (ha : b.alive = true)
    (hupd : Bot.update cfg rng b m = some (b', m')) :
    b'.current_instruction < 32 ∧
    ∀ b1 m1 next, b.exec cfg rng m = some (b1, m1, next) →
      b'.current_instruction = if 32 ≤ next then 0 else next := by
  obtain ⟨b1, next, hexec, hb'⟩ := Bot.update_elim ha hupd
  subst hb'
  constructor
  · rw [Bot.epilogue_current_instruction]
    split_ifs with hw
    · norm_num
    · omega
  · intro b1' m1' next' hexec'
    rw [hexec] at hexec'
    simp only [Option.some.injEq, Prod.mk.injEq] at hexec'
    obtain ⟨-, -, hn⟩ := hexec'
    subst hn
    exact Bot.epilogue_current_instruction ..

/-- Counterexample for C2 as stated: a branch target of 40 (a value any
imported cell can carry in its `u8` branch field) computes next pointer 40,
and the stored pointer is 0, not `40 % 32 = 8`. -/
theorem c2_counterexample :
    (branch40Bot.exec defaultConfig dummyRng emptyMap).map
        (fun t => t.2.2) = some 40 ∧
    (Bot.update defaultConfig dummyRng branch40Bot emptyMap).map
        (fun p => p.1.current_instruction) = some 0 ∧
    40 % 32 ≠ 0 := by
  refine ⟨?_, ?_, by norm_num⟩
  · simp [Bot.exec, branch40Bot, emptyMap, Map.get, Bot.currentGene, mkGene,
      Direction.apply_direction, defaultConfig]
  · norm_num [Bot.update, Bot.exec, Bot.epilogue, branch40Bot, emptyMap,
      Map.get, Bot.currentGene, mkGene, Direction.apply_direction,
      defaultConfig, GENOME_LENGTH, apply_ite Bot.current_instruction]

/-- Witness for C2 (amended): the bot with computed next pointer 40 stores 0,
which is in `[0, 32)`. -/
theorem c2_witness :
    Bot.update defaultConfig dummyRng branch40Bot emptyMap =
      some (branch40BotAfter, emptyMap) ∧
    branch40BotAfter.current_instruction < 32 := by
  have hupd : Bot.update defaultConfig dummyRng branch40Bot emptyMap =
      some (branch40BotAfter, emptyMap) := by
    norm_num [Bot.update, Bot.exec, Bot.epilogue, branch40Bot,
      branch40BotAfter, emptyMap, Map.get, Bot.currentGene, mkGene,
      Direction.apply_direction, defaultConfig, GENOME_LENGTH]
  exact ⟨hupd, (c2_pointer_wrap defaultConfig dummyRng branch40Bot emptyMap
    _ _ rfl hupd).1⟩

/-- C4 (amended): at the end of an alive bot's update the age has been
incremented by one and the empty flag is untouched; the bot is marked dead
when the age *before* the increment exceeded the configured maximum or the
final energy is negative.  (The source checks the age before incrementing, so
a bot whose age first exceeds the maximum only at this update's increment
stays alive until its next update.) -/
theorem c4_death_check (cfg : Config) (rng : Rng) (b : Bot) (m : Map)
    (b' : Bot) (m' : Map) (ha : b.alive = true)
    (hupd : Bot.update cfg rng b m = some (b', m')) :
    b'.age = b.age + 1 ∧ b'.empty = b.empty ∧
    ((cfg.CELL_MAX_AGE < b.age ∨ b'.energy < 0) → b'.alive = false) := by
  obtain ⟨b1, next, hexec, hb'⟩ := Bot.update_elim ha hupd
  obtain ⟨halive, hempty, hage, -⟩ := Bot.exec_spec hexec
  subst hb'
  refine ⟨?_, ?_, ?_⟩
  · rw [Bot.epilogue_age, hage]
  · rw [Bot.epilogue_empty, hempty]
  · intro hcond
    rw [Bot.epilogue_energy] at hcond
    rw [Bot.epilogue_alive, hage]
    exact if_pos hcond

/-- Counterexample for C4 as stated: under a configuration with maximum age 0,
a bot of age 0 ends its update with age 1 > 0 — its end-of-update age exceeds
the maximum — yet it is still alive, because the source checks the age before
incrementing it. -/
theorem c4_counterexample :
    Bot.update maxAge0Config dummyRng noopBot emptyMap =
      some (noopBotAfter, emptyMap) ∧
    maxAge0Config.CELL_MAX_AGE < 1 ∧
    noopBotAfter.age = 1 ∧ noopBotAfter.alive = true := by
  refine ⟨?_, by norm_num [maxAge0Config, defaultConfig], rfl, rfl⟩
  norm_num [Bot.update, Bot.exec, Bot.epilogue, noopBot, noopBotAfter,
    emptyMap, Map.get, Bot.currentGene, mkGene, Direction.apply_direction,
    maxAge0Config, defaultConfig, GENOME_LENGTH]

/-- Witness for C4 (amended): a bot of age 1 under maximum age 0 is dead at
the end of its update, with age incremented to 2 and empty flag untouched. -/
theorem c4_witness :
    noopBotAge1After.age = noopBotAge1.age + 1 ∧
    noopBotAge1After.empty = noopBotAge1.empty ∧
    ((maxAge0Config.CELL_MAX_AGE < noopBotAge1.age ∨
      noopBotAge1After.energy < 0) → noopBotAge1After.alive = false) := by
  have hupd : Bot.update maxAge0Config dummyRng noopBotAge1 emptyMap =
      some (noopBotAge1After, emptyMap) := by
    norm_num [Bot.update, Bot.exec, Bot.epilogue, noopBot, noopBotAge1,
      noopBotAge1After, emptyMap, Map.get, Bot.currentGene, mkGene,
      Direction.apply_direction, maxAge0Config, defaultConfig, GENOME_LENGTH]
  exact c4_death_check maxAge0Config dummyRng noopBotAge1 emptyMap _ _ rfl hupd

/-- C8: on the 160×90 grid of `config.rs`, `apply_direction` of any facing
from any in-range coordinate lands in range again, so `Map::get_mut` returns
`Some` and the `unwrap` in `Bot::update` never reaches its panic branch. -/
theorem c8_lookup_safe (m : Map) (x y : ℕ) (d : Direction)
    (hw : m.width = 160) (hh : m.height = 90) (hx : x < 160) (hy : y < 90) :
    (d.apply_direction defaultConfig x y).1 < 160 ∧
    (d.apply_direction defaultConfig x y).2 < 90 ∧
    (∃ c, m.get (d.apply_direction defaultConfig x y).1
        (d.apply_direction defaultConfig x y).2 = some c) ∧
    (∀ (rng : Rng) (b : Bot), b.x = x → b.y = y → b.direction = d →
       Bot.update defaultConfig rng b m ≠ none) := by
  have hrange : (d.apply_direction defaultConfig x y).1 < 160 ∧
      (d.apply_direction defaultConfig x y).2 < 90 := by
    cases d <;> simp [Direction.apply_direction, defaultConfig] <;>
      split_ifs <;> omega
  have hget : ∃ c, m.get (d.apply_direction defaultConfig x y).1
      (d.apply_direction defaultConfig x y).2 = some c := by
    refine ⟨m.data (d.apply_direction defaultConfig x y).1
      (d.apply_direction defaultConfig x y).2, ?_⟩
    simp [Map.get, hw, hh, hrange.1, hrange.2]
  refine ⟨hrange.1, hrange.2, hget, ?_⟩
  intro rng b hbx hby hbd
  apply Bot.update_ne_none
  rw [hbx, hby, hbd]
  exact hget

/-- Witness for C8: stepping left from the left edge lands at column 159 and
the lookup succeeds. -/
theorem c8_witness :
    (Direction.Left.apply_direction defaultConfig 0 0).1 < 160 ∧
    (Direction.Left.apply_direction defaultConfig 0 0).2 < 90 ∧
    (∃ c, emptyMap.get (Direction.Left.apply_direction defaultConfig 0 0).1
        (Direction.Left.apply_direction defaultConfig 0 0).2 = some c) ∧
    (∀ (rng : Rng) (b : Bot), b.x = 0 → b.y = 0 → b.direction = .Left →
       Bot.update defaultConfig rng b emptyMap ≠ none) :=
  c8_lookup_safe emptyMap 0 0 .Left rfl rfl (by norm_num) (by norm_num)

/-- C1: a bot executing `MakeChild` takes `branch_alt` and changes nothing
else exactly when its energy is below the reproduction threshold AND the
faced cell is non-empty; in every other case (in particular whenever the
faced cell is empty, regardless of energy) it writes the offspring at the
faced coordinate, deducts exactly the reproduction threshold from its own
energy, and takes `branch`. -/
theorem c1_make_child (cfg : Config) (rng : Rng) (b : Bot) (m : Map)
    (lx ly : ℕ) (f : Bot)
    (happly : b.direction.apply_direction cfg b.x b.y = (lx, ly))
    (hget : m.get lx ly = some f)
    (hinstr : b.currentGene.instruction = .MakeChild) :
    (b.energy < cfg.REPRODUCTION_REQUIRED_ENERGY ∧ f.empty = false →
      b.exec cfg rng m = some (b, m, b.currentGene.branch_alt)) ∧
    (¬(b.energy < cfg.REPRODUCTION_REQUIRED_ENERGY ∧ f.empty = false) →
      (Bot.makeChild cfg rng b lx ly).x = lx ∧
      (Bot.makeChild cfg rng b lx ly).y = ly ∧
      (Bot.makeChild cfg rng b lx ly).age = 0 ∧
      (Bot.makeChild cfg rng b lx ly).energy = cfg.START_ENERGY ∧
      (Bot.makeChild cfg rng b lx ly).current_instruction = 0 ∧
      b.exec cfg rng m =
        some ({ b with energy := b.energy - cfg.REPRODUCTION_REQUIRED_ENERGY },
          m.set lx ly (Bot.makeChild cfg rng b lx ly),
          b.currentGene.branch)) := by
  constructor
  · intro hc
    simp only [Bot.exec, happly, hget, hinstr]
    simp [hc.1, hc.2]
  · intro hc
    refine ⟨Bot.makeChild_x .., Bot.makeChild_y .., Bot.makeChild_age ..,
      Bot.makeChild_energy .., Bot.makeChild_current_instruction .., ?_⟩
    simp only [Bot.exec, happly, hget, hinstr]
    rw [if_neg hc]
    simp [Bot.makeChild_x, Bot.makeChild_y]

/-- Witness for C1: a parent with 20 ≥ 16 energy facing an empty cell
reproduces into it, paying exactly the threshold. -/
theorem c1_witness :
    (Bot.makeChild defaultConfig dummyRng parentBot 1 0).x = 1 ∧
    (Bot.makeChild defaultConfig dummyRng parentBot 1 0).y = 0 ∧
    (Bot.makeChild defaultConfig dummyRng parentBot 1 0).age = 0 ∧
    (Bot.makeChild defaultConfig dummyRng parentBot 1 0).energy =
      defaultConfig.START_ENERGY ∧
    (Bot.makeChild defaultConfig dummyRng parentBot 1 0).current_instruction = 0 ∧
    parentBot.exec defaultConfig dummyRng parentMap =
      some ({ parentBot with
                energy := parentBot.energy -
                  defaultConfig.REPRODUCTION_REQUIRED_ENERGY },
        parentMap.set 1 0 (Bot.makeChild defaultConfig dummyRng parentBot 1 0),
        parentBot.currentGene.branch) :=
  (c1_make_child defaultConfig dummyRng parentBot parentMap 1 0
      (Bot.new_empty 1 0)
      (by simp [Direction.apply_direction, parentBot, defaultConfig])
      (by simp [parentMap, Map.get])
      rfl).2
    (by norm_num [parentBot, defaultConfig])

/-- C5: energy conservation of the transfer instructions at the instant of
the instruction's effect: `GiveEnergy` moves exactly
`clamp(gene.energy, 0, self.energy)` from self to an alive faced cell, and
`AttackCell` (when it fires) moves exactly `min(faced.energy, attack amount)`
from the faced cell to self, so beyond the attack-entry cost the pair's total
energy is unchanged. -/
theorem c5_energy_conservation (cfg : Config) (rng : Rng) (b : Bot) (m : Map)
    (lx ly : ℕ) (f : Bot)
    (happly : b.direction.apply_direction cfg b.x b.y = (lx, ly))
    (hget : m.get lx ly = some f) :
    (b.currentGene.instruction = .GiveEnergy → f.alive = true →
      0 ≤ b.energy →
      b.exec cfg rng m =
        some ({ b with
                  energy := b.energy - rustClamp b.currentGene.energy 0 b.energy },
          m.set lx ly { f with
            energy := f.energy + rustClamp b.currentGene.energy 0 b.energy },
          b.current_instruction + 1) ∧
      (b.energy - rustClamp b.currentGene.energy 0 b.energy) +
        (f.energy + rustClamp b.currentGene.energy 0 b.energy) =
        b.energy + f.energy) ∧
    (b.currentGene.instruction = .AttackCell →
      cfg.ATTACK_REQUIRED_ENERGY ≤ b.energy → f.alive = true →
      b.exec cfg rng m =
        some ({ b with
                  energy := b.energy - cfg.ATTACK_REQUIRED_ENERGY +
                    min f.energy cfg.ATTACK_ENERGY },
          m.set lx ly { f with
            energy := f.energy - min f.energy cfg.ATTACK_ENERGY },
          b.current_instruction + 1) ∧
      (b.energy - cfg.ATTACK_REQUIRED_ENERGY + min f.energy cfg.ATTACK_ENERGY) +
        (f.energy - min f.energy cfg.ATTACK_ENERGY) =
        b.energy + f.energy - cfg.ATTACK_REQUIRED_ENERGY) := by
  constructor
  · intro hinstr hf _
    refine ⟨?_, by ring⟩
    simp only [Bot.exec, happly, hget, hinstr]
    rw [if_pos hf]
  · intro hinstr hreq hf
    refine ⟨?_, by ring⟩
    simp only [Bot.exec, happly, hget, hinstr]
    rw [if_pos ⟨hreq, hf⟩]

/-- Witness for C5: the donor with 5 energy gives `clamp(2, 0, 5) = 2` to the
alive recipient; the pair total is unchanged. -/
theorem c5_witness :
    donorBot.exec defaultConfig dummyRng giveMap =
      some ({ donorBot with
                energy := donorBot.energy -
                  rustClamp donorBot.currentGene.energy 0 donorBot.energy },
        giveMap.set 1 0 { recipientBot with
          energy := recipientBot.energy +
            rustClamp donorBot.currentGene.energy 0 donorBot.energy },
        donorBot.current_instruction + 1) ∧
    (donorBot.energy -
        rustClamp donorBot.currentGene.energy 0 donorBot.energy) +
      (recipientBot.energy +
        rustClamp donorBot.currentGene.energy 0 donorBot.energy) =
      donorBot.energy + recipientBot.energy :=
  (c5_energy_conservation defaultConfig dummyRng donorBot giveMap 1 0
      recipientBot
      (by simp [Direction.apply_direction, donorBot, defaultConfig])
      (by simp [giveMap, Map.get])).1
    rfl rfl (by norm_num [donorBot])

/-- C6: `CheckIfFacingRelative` takes `branch` exactly when the faced cell is
alive and all 32 genome slots carry the same opcode as self's genome
(other gene fields ignored); it takes `branch_alt` when the faced cell is not
alive or at least one opcode differs. -/
theorem c6_facing_relative (cfg : Config) (rng : Rng) (b : Bot) (m : Map)
    (lx ly : ℕ) (f : Bot)
    (happly : b.direction.apply_direction cfg b.x b.y = (lx, ly))
    (hget : m.get lx ly = some f)
    (hinstr : b.currentGene.instruction = .CheckIfFacingRelative) :
    (f.alive = false →
      b.exec cfg rng m = some (b, m, b.currentGene.branch_alt)) ∧
    (f.alive = true →
      (∀ i : Fin 32, (b.genome i).instruction = (f.genome i).instruction) →
      b.exec cfg rng m = some (b, m, b.currentGene.branch)) ∧
    (f.alive = true →
      (∃ i : Fin 32, (b.genome i).instruction ≠ (f.genome i).instruction) →
      b.exec cfg rng m = some (b, m, b.currentGene.branch_alt)) := by
  refine ⟨?_, ?_, ?_⟩
  · intro hf
    simp only [Bot.exec, happly, hget, hinstr]
    rw [if_pos hf]
  · intro hf hall
    simp only [Bot.exec, happly, hget, hinstr]
    rw [if_neg (by simp [hf])]
    rw [if_pos ((similar_count_eq_iff _).mpr hall)]
  · intro hf hdiff
    obtain ⟨i, hi⟩ := hdiff
    simp only [Bot.exec, happly, hget, hinstr]
    rw [if_neg (by simp [hf])]
    rw [if_neg fun hcard => hi ((similar_count_eq_iff _).mp hcard i)]

/-- Witness for C6: an alive faced cell with every opcode equal (other gene
fields different) makes the checker take `branch`. -/
theorem c6_witness :
    relCheckerBot.exec defaultConfig dummyRng relMap =
      some (relCheckerBot, relMap, relCheckerBot.currentGene.branch) :=
  (c6_facing_relative defaultConfig dummyRng relCheckerBot relMap 1 0
      relTwinBot
      (by simp [Direction.apply_direction, relCheckerBot, defaultConfig])
      (by simp [relMap, Map.get])
      rfl).2.1 rfl (fun _ => rfl)

/-- Counterexample for C3 as stated: recycling a corpse holding 3 energy
leaves the cell with `empty = true` but energy 3 ≠ 0 (and its old genome):
an empty cell need not have zero energy. -/
theorem c3_counterexample :
    ((Bot.update defaultConfig dummyRng recyclerBot recycleMap).bind
        fun p => p.2.get 1 0).map (fun c => (c.empty, c.alive, c.energy)) =
      some (true, false, 3) ∧ (3 : ℚ) ≠ 0 := by
  refine ⟨?_, by norm_num⟩
  norm_num [Bot.update, Bot.exec, Bot.epilogue, recyclerBot, corpseBot,
    recycleMap, Map.get, Map.set, Bot.currentGene, mkGene, Bot.is_dead,
    Direction.apply_direction, defaultConfig, GENOME_LENGTH,
    apply_ite Bot.current_instruction, apply_ite Bot.energy,
    apply_ite Bot.age]

/-- C3 (amended): the flag partition — a cell is empty (`empty=true,
alive=false`), alive (`alive=true, empty=false`) or dead-but-occupied
(`alive=false, empty=false`), never both alive and empty — holds for the
cells map generation produces and is preserved by every `Bot::update` and by
the full tick scan.  (The stronger reading "empty implies energy 0 and
default genome" is refuted by `RecycleDeadCell`, which marks the faced corpse
empty while leaving its energy and genome fields in place.) -/
theorem c3_flag_partition :
    (∀ x y : ℕ, WFCell (Bot.new_empty x y)) ∧
    (∀ (cfg : Config) (x y : ℕ) (g : Fin 32 → Gene) (d : Direction)
       (c : Color), WFCell (Bot.new_random cfg x y g d c)) ∧
    (∀ (cfg : Config) (rng : Rng) (b : Bot) (m : Map) (b' : Bot) (m' : Map),
      WFCell b → MapWF m → Bot.update cfg rng b m = some (b', m') →
      WFCell b' ∧ MapWF m') ∧
    (∀ (cfg : Config) (rng : ℕ → ℕ → Rng) (m m' : Map),
      MapWF m → simUpdate cfg rng m = some m' → MapWF m') := by
  refine ⟨?_, ?_, ?_, ?_⟩
  · intro x y
    intro hal
    cases hal
  · intro cfg x y g d c
    intro _
    rfl
  · intro cfg rng b m b' m' hwb hm hupd
    exact Bot.update_wf hwb hm hupd
  · intro cfg rng m m' hm hsim
    exact simUpdate_wf hm hsim

/-- Witness for C3 (amended): the flag partition is preserved through the
concrete recycle step (whose result still carries 3 energy in an empty
cell). -/
theorem c3_witness :
    WFCell recyclerBotAfter ∧ MapWF recycleMapAfter := by
  have hwfm : MapWF recycleMap := by
    intro x y c hc
    simp [Map.get, recycleMap] at hc
    obtain ⟨-, hc⟩ := hc
    subst hc
    split_ifs <;> intro hal
    · rfl
    · rfl
    · exact Bool.noConfusion hal
  have hupd : Bot.update defaultConfig dummyRng recyclerBot recycleMap =
      some (recyclerBotAfter, recycleMapAfter) := by
    norm_num [Bot.update, Bot.exec, Bot.epilogue, recyclerBot, corpseBot,
      recyclerBotAfter, recycleMapAfter, recycleMap, Map.get, Map.set,
      Bot.currentGene, mkGene, Bot.is_dead, Direction.apply_direction,
      defaultConfig, GENOME_LENGTH]
  exact c3_flag_partition.2.2.1 defaultConfig dummyRng recyclerBot recycleMap
    recyclerBotAfter recycleMapAfter (fun _ => rfl) hwfm hupd

/-- C9: serializing any bot to the structured text encoding and deserializing
the result reconstructs the bot field for field — occupancy flags,
coordinates, energy, direction, color, age, all 32 genome slots with every
gene field, and the instruction pointer. -/
theorem c9_round_trip (b : Bot) : decodeBot (encodeBot b) = some b := by
  obtain ⟨al, em, x, y, e, d, c, a, g, ci⟩ := b
  have hmap : List.ofFn (fun i => encodeGene (g i)) =
      (List.ofFn g).map encodeGene := (List.map_ofFn g encodeGene).symm
  simp only [encodeBot, hmap]
  rw [decodeBot]
  rw [if_pos (by simp)]
  simp only [decodeBool, decodeStr, decodeArr, decodeNat_natCast,
    decodeRat_num, direction_name_round_trip, decodeColor_encodeColor,
    decodeGenes_map_encodeGene, Option.pure_def, Option.bind_eq_bind,
    Option.some_bind]
  rw [dif_pos (List.length_ofFn g)]
  simp only [Option.some.injEq, Bot.mk.injEq, true_and, and_true]
  funext i
  rw [List.get_ofFn]
  congr 1

/-- Counterexample for C7 as stated: in the attack scenario with the
repository's idle cost 0.1, the right cell ends the tick with
`10 − 4 − 0.1 = 5.9`, not `10 − 4` — being alive, it pays its own idle cost
when its turn in the same scan comes. -/
theorem c7_counterexample :
    ((simUpdate (duelConfig (1/10)) (fun _ _ => dummyRng) duelMap).bind
        fun m => (m.get 1 0).map Bot.energy) = some (59/10) ∧
    (59/10 : ℚ) ≠ 10 - 4 := by
  refine ⟨?_, by norm_num⟩
  norm_num [simUpdate, stepCell, Bot.update, Bot.exec, Bot.epilogue,
    duelConfig, duelMap, attackerBot, victimBot, Map.get, Map.set,
    Bot.currentGene, mkGene, Direction.apply_direction, GENOME_LENGTH,
    show List.range 2 = [0, 1] from rfl, show List.range 1 = [0] from rfl,
    List.foldlM_cons, List.foldlM_nil, min_def,
    apply_ite Bot.energy, apply_ite Bot.alive, apply_ite Bot.x,
    apply_ite Bot.y, apply_ite Bot.age, apply_ite Bot.current_instruction]

/-- C7 (amended): in the attack scenario (2×1 torus, attack amount 4,
attack-entry cost 2, left attacker with 5 energy and genome `[AttackCell]`,
right alive victim with 10 energy and genome `[Noop]`), after one full tick
the left cell's energy is `5 − 2 + 4 − idle_cost` and the right cell's energy
is `10 − 4 − idle_cost`: the alive right cell also pays the per-tick idle
cost when its own instruction executes later in the same scan. -/
theorem c7_attack_tick (c : ℚ) :
    ((simUpdate (duelConfig c) (fun _ _ => dummyRng) duelMap).bind
        fun m => (m.get 0 0).map Bot.energy) = some (5 - 2 + 4 - c) ∧
    ((simUpdate (duelConfig c) (fun _ _ => dummyRng) duelMap).bind
        fun m => (m.get 1 0).map Bot.energy) = some (10 - 4 - c) := by
  constructor <;>
    · norm_num [simUpdate, stepCell, Bot.update, Bot.exec, Bot.epilogue,
        duelConfig, duelMap, attackerBot, victimBot, Map.get, Map.set,
        Bot.currentGene, mkGene, Direction.apply_direction, GENOME_LENGTH,
        show List.range 2 = [0, 1] from rfl, show List.range 1 = [0] from rfl,
        List.foldlM_cons, List.foldlM_nil, min_def,
        apply_ite Bot.energy, apply_ite Bot.alive, apply_ite Bot.x,
        apply_ite Bot.y, apply_ite Bot.age, apply_ite Bot.current_instruction]

end CellSim
